import Mathlib

/-!
Verification of the gennotes-agent HTTP gateway (`src/main.py`).

The repository exposes one FastAPI endpoint, `POST /generate`, handled by
`generate_notes`, plus an image-search adapter `search_images` inside the
`GoogleImageSearchTools` toolkit.  We shallowly embed the Python code:

* JSON values (Python dicts/lists/strings as produced by `request.json()`
  and `response.json()`) become the inductive `JValue`;
* Python dynamic operations used by the source (`dict.get`, `obj[key]`,
  `for x in v`, truthiness) become explicit `Except`-returning or
  `Bool`-returning functions with Python's raise behaviour;
* exceptions are `Exc`: either a FastAPI `HTTPException` (status, detail)
  or any other exception carrying its `str(e)` message;
* the external agno agent (`agent.run`, `agent.memory.messages`) is a
  parameter `AgentSpec σ`: a state type (the agent's mutable memory), a
  `run` function that transforms the state and yields either the response
  content or a raised message, and a `messages` view of the state — the
  handler reads `agent.memory.messages` after `agent.run` returns;
* the handler threads the module-global agent object exactly as the
  source does: one shared agent value across all requests (`serve`).
-/

set_option autoImplicit false

/-- A JSON-like Python value: `None`, booleans, numbers, strings, lists and
dicts (association lists, first binding wins as after JSON parsing). -/
inductive JValue where
  | null
  | bool (b : Bool)
  | num (n : Int)
  | str (s : String)
  | arr (xs : List JValue)
  | obj (fields : List (String × JValue))

/-- An exception as the handler distinguishes them: `http` is a FastAPI
`HTTPException` with status code and detail; `other` is any other Python
exception, carrying its `str(e)` text. -/
inductive Exc where
  | http (status_code : Nat) (detail : String)
  | other (msg : String)
deriving DecidableEq

/-- Python truthiness (`if not content:` in the handler): `None`, `False`,
zero, the empty string, the empty list and the empty dict are falsy. -/
def pyTruthy : JValue → Bool
  | .null => false
  | .bool b => b
  | .num n => !(n == 0)
  | .str s => !(s == "")
  | .arr xs => !xs.isEmpty
  | .obj fs => !fs.isEmpty

/-- Python `v.get(k, dflt)` (`data.get("content")`, `results.get('items', [])`):
on a dict, the value bound to `k` or the default; on any other value an
`AttributeError` is raised (`.get` does not exist). -/
def pyDictGet (v : JValue) (k : String) (dflt : JValue) : Except Exc JValue :=
  match v with
  | .obj fs => .ok ((fs.lookup k).getD dflt)
  | _ => .error (.other ("AttributeError: object has no attribute get, key " ++ k))

/-- Python `v[k]` for a string key (`item['link']`): on a dict, the bound
value or a `KeyError`; on any other value a `TypeError`. -/
def pySubscript (v : JValue) (k : String) : Except Exc JValue :=
  match v with
  | .obj fs =>
    match fs.lookup k with
    | some x => .ok x
    | none => .error (.other ("KeyError: " ++ k))
  | _ => .error (.other ("TypeError: value is not subscriptable by key " ++ k))

/-- Python iteration `for x in v` (the list comprehension in
`search_images`): lists yield their elements, strings their characters,
dicts their keys; other values raise a `TypeError`. -/
def pyIter : JValue → Except Exc (List JValue)
  | .arr xs => .ok xs
  | .str s => .ok (s.toList.map (fun c => .str c.toString))
  | .obj fs => .ok (fs.map (fun p => .str p.1))
  | _ => .error (.other "TypeError: object is not iterable")

/-- The outcome of the outbound `requests.get` call in `search_images`:
the HTTP status code, the raw body text, and the result of parsing the
body as JSON (`response.json()` either yields a value or raises, with
message `m`). -/
structure HttpResp where
  status_code : Nat
  text : String
  jsonBody : Except String JValue

/-- The list comprehension `[item['link'] for item in items]` of
src/main.py line 64: evaluate `item['link']` left to right, raising at the
first item on which the subscript raises, otherwise collect the links in
order. -/
def extract_links : List JValue → Except Exc (List JValue)
  | [] => .ok []
  | item :: rest =>
    match pySubscript item "link" with
    | .error e => .error e
    | .ok v =>
      match extract_links rest with
      | .error e => .error e
      | .ok vs => .ok (v :: vs)

/-- `GoogleImageSearchTools.search_images` (src/main.py lines 39-66), as a
function of the API response: if the status code is not 200, raise
`Exception(f"Google API Error: {status_code} - {text}")`; otherwise parse
the body (`response.json()`), take `results.get('items', [])`, and return
`[item['link'] for item in items]`. -/
def search_images (resp : HttpResp) : Except Exc (List JValue) :=
  if resp.status_code ≠ 200 then
    .error (.other ("Google API Error: " ++ toString resp.status_code ++ " - " ++ resp.text))
  else
    match resp.jsonBody with
    | .error m => .error (.other m)
    | .ok results =>
      match pyDictGet results "items" (.arr []) with
      | .error e => .error e
      | .ok itemsV =>
        match pyIter itemsV with
        | .error e => .error e
        | .ok items => extract_links items

/-- A message in the agent's conversation transcript, as the handler sees
it: each of the two attributes the handler probes with `hasattr` may be
present (with some value) or absent. -/
structure PyMsg where
  role : Option JValue
  content : Option JValue

/-- The external agno agent as the handler uses it, over a memory state
type `σ`: `run s x` performs `agent.run(x)` from memory state `s`, giving
the memory state afterwards and either the response content string or the
`str(e)` of a raised exception; `messages s` is `agent.memory.messages`
in state `s`. -/
structure AgentSpec (σ : Type) where
  run : σ → JValue → σ × Except String String
  messages : σ → List PyMsg

/-- The successful response body of `POST /generate`
(`{"html_content": response.content, "messages": serializable_messages}`):
each returned message is the pair of the original `role` and `content`
attribute values. -/
structure HtmlResp where
  html_content : String
  messages : List (JValue × JValue)

/-- The list comprehension of src/main.py lines 166-170: keep the
messages exposing both a `role` and a `content` attribute, projected to
their `{"role": ..., "content": ...}` pair. -/
def serializable_messages (msgs : List PyMsg) : List (JValue × JValue) :=
  msgs.filterMap (fun msg =>
    match msg.role, msg.content with
    | some r, some c => some (r, c)
    | _, _ => none)

/-- The body of the outer `try` of `generate_notes` (src/main.py lines
154-176), threading the shared agent memory state: parse the request
(`request.json()`, whose failure is a plain exception), read
`data.get("content")`, raise `HTTPException(400, ...)` when the content is
falsy, otherwise run the agent; an agent exception becomes
`HTTPException(500, "An error occurred during generation: " ++ m)`; on
success the response carries `response.content` and the serializable
messages read from `agent.memory.messages` after the run. -/
def generate_notes_body {σ : Type} (A : AgentSpec σ) (s : σ)
    (req : Except String JValue) : σ × Except Exc HtmlResp :=
  match req with
  | .error m => (s, .error (.other m))
  | .ok data =>
    match pyDictGet data "content" .null with
    | .error e => (s, .error e)
    | .ok content =>
      if pyTruthy content = false then
        (s, .error (.http 400 "Missing 'content' in request body"))
      else
        match A.run s content with
        | (s2, .error m) =>
          (s2, .error (.http 500 ("An error occurred during generation: " ++ m)))
        | (s2, .ok html) =>
          (s2, .ok { html_content := html,
                     messages := serializable_messages (A.messages s2) })

/-- The `generate_notes` handler (src/main.py lines 148-184): run the
body; an `HTTPException` escaping it is re-raised unchanged
(`except HTTPException as http_exc: raise http_exc`); any other exception
becomes `HTTPException(500, "Failed to process request: " ++ m)`. -/
def generate_notes {σ : Type} (A : AgentSpec σ) (s : σ)
    (req : Except String JValue) : σ × Except Exc HtmlResp :=
  match generate_notes_body A s req with
  | (s2, .ok v) => (s2, .ok v)
  | (s2, .error (.http c d)) => (s2, .error (.http c d))
  | (s2, .error (.other m)) =>
    (s2, .error (.http 500 ("Failed to process request: " ++ m)))

/-- A sequence of requests served by the module-global agent: the final
agent memory state after handling each request in turn with the same
shared agent, as the FastAPI app does with the module-level `agent`
initialized once at import (src/main.py lines 72-126). -/
def serve {σ : Type} (A : AgentSpec σ) : σ → List (Except String JValue) → σ
  | s, [] => s
  | s, r :: rs => serve A (generate_notes A s r).1 rs

/-- The JSON encoding of a successful response body, with the two
top-level keys written by src/main.py line 171 and each message encoded
as its `{"role": ..., "content": ...}` object. -/
def HtmlResp.toJson (h : HtmlResp) : JValue :=
  .obj [("html_content", .str h.html_content),
        ("messages", .arr (h.messages.map (fun p => .obj [("role", p.1), ("content", p.2)])))]

/-- The `link` attribute an item of the API result exposes: a dict's
`"link"` binding, nothing on any other value. -/
def linkOf : JValue → Option JValue
  | .obj fs => fs.lookup "link"
  | _ => none

/-- Observable of a handler outcome: how many messages a successful
response carries (0 on an error). -/
def respMsgCount : Except Exc HtmlResp → Nat
  | .ok v => v.messages.length
  | .error _ => 0

/-- Test fixture: an agent whose memory is the list of inputs it has been
run on; each run appends its input and succeeds, and the transcript shows
one user message per remembered input.  This is the shape of a
conversational agent whose memory accumulates across runs on the same
instance. -/
def agentAccum : AgentSpec (List JValue) where
  run := fun s x => (s ++ [x], .ok "<p>notes</p>")
  messages := fun s => s.map (fun v => { role := some (.str "user"), content := some v })

/-- Test fixture: an agent that ignores and flips its Boolean state,
always succeeds, and reports an empty transcript. -/
def agentFlip : AgentSpec Bool where
  run := fun s _ => (!s, .ok "<p>notes</p>")
  messages := fun _ => []

/-- Test fixture: an agent that always raises with message `"boom"`. -/
def agentFail : AgentSpec Unit where
  run := fun s _ => (s, .error "boom")
  messages := fun _ => []

/-- Test fixture: an agent that succeeds with one well-formed and one
attribute-less transcript message. -/
def agentTwoMsgs : AgentSpec Unit where
  run := fun s _ => (s, .ok "<p>notes</p>")
  messages := fun _ =>
    [ { role := some (.str "user"), content := some (.str "q") },
      { role := none, content := some (.str "dropped") } ]

/-- Test fixture: a well-formed request body `{"content": "topic"}`. -/
def goodReq : Except String JValue := .ok (.obj [("content", .str "topic")])

/-! ## Supporting lemmas -/

theorem pySubscript_link_of_linkOf (it v : JValue) (h : linkOf it = some v) :
    pySubscript it "link" = .ok v := by
  cases it with
  | obj fs =>
    simp only [linkOf] at h
    simp [pySubscript, h]
  | null => simp [linkOf] at h
  | bool b => simp [linkOf] at h
  | num n => simp [linkOf] at h
  | str s => simp [linkOf] at h
  | arr xs => simp [linkOf] at h

theorem pySubscript_link_error_of_linkOf_none (it : JValue) (h : linkOf it = none) :
    ∃ m, pySubscript it "link" = .error (.other m) := by
  cases it with
  | obj fs =>
    simp only [linkOf] at h
    exact ⟨"KeyError: link", by simp [pySubscript, h]⟩
  | null => exact ⟨_, rfl⟩
  | bool b => exact ⟨_, rfl⟩
  | num n => exact ⟨_, rfl⟩
  | str s => exact ⟨_, rfl⟩
  | arr xs => exact ⟨_, rfl⟩

theorem extract_links_all_some (items : List JValue)
    (h : ∀ it ∈ items, (linkOf it).isSome) :
    extract_links items = .ok (items.filterMap linkOf) := by
  induction items with
  | nil => rfl
  | cons x xs ih =>
    have hx := h x (List.mem_cons_self x xs)
    rcases hlx : linkOf x with _ | v
    · rw [hlx] at hx; simp at hx
    · have hxs := ih (fun it hit => h it (List.mem_cons_of_mem x hit))
      simp [extract_links, pySubscript_link_of_linkOf x v hlx, hxs,
        List.filterMap_cons, hlx]

theorem extract_links_error_of_missing (items : List JValue)
    (h : ∃ it ∈ items, linkOf it = none) :
    ∃ m, extract_links items = .error (.other m) := by
  induction items with
  | nil => simp at h
  | cons x xs ih =>
    rcases hlx : linkOf x with _ | v
    · obtain ⟨m, hm⟩ := pySubscript_link_error_of_linkOf_none x hlx
      exact ⟨m, by simp [extract_links, hm]⟩
    · have hxs : ∃ it ∈ xs, linkOf it = none := by
        rcases h with ⟨it, hit, hnone⟩
        rcases List.mem_cons.1 hit with rfl | hmem
        · rw [hlx] at hnone; exact absurd hnone (by simp)
        · exact ⟨it, hmem, hnone⟩
      obtain ⟨m, hm⟩ := ih hxs
      exact ⟨m, by simp [extract_links, pySubscript_link_of_linkOf x v hlx, hm]⟩

theorem filterMap_length_of_isSome {α β : Type} (f : α → Option β) (l : List α)
    (h : ∀ x ∈ l, (f x).isSome) : (l.filterMap f).length = l.length := by
  induction l with
  | nil => rfl
  | cons x xs ih =>
    have hx := h x (List.mem_cons_self x xs)
    rcases hfx : f x with _ | v
    · rw [hfx] at hx; simp at hx
    · simp [List.filterMap_cons, hfx, ih (fun y hy => h y (List.mem_cons_of_mem x hy))]

/-! ## Claims about the image-search adapter -/

/-- Claim C7: for every query on which the image-search API responds with
HTTP 200, `search_images` returns the list of the `link` field of each
item of the response's result list, in the order returned by the API, so
the returned list's length equals the number of items in the response;
when the response contains no result list, it returns the empty list. -/
theorem search_images_success (resp : HttpResp) (fs : List (String × JValue))
    (hs : resp.status_code = 200) (hj : resp.jsonBody = .ok (.obj fs)) :
    (∀ items, fs.lookup "items" = some (.arr items) →
        (∀ it ∈ items, (linkOf it).isSome) →
        search_images resp = .ok (items.filterMap linkOf) ∧
        (items.filterMap linkOf).length = items.length) ∧
    (fs.lookup "items" = none → search_images resp = .ok []) := by
  constructor
  · intro items hitems hlinks
    refine ⟨?_, filterMap_length_of_isSome linkOf items hlinks⟩
    simp [search_images, hs, hj, pyDictGet, hitems, pyIter,
      extract_links_all_some items hlinks]
  · intro hnone
    simp [search_images, hs, hj, pyDictGet, hnone, pyIter, extract_links]

/-- Witness for C7 at a concrete 200 response with two items. -/
theorem search_images_success_witness :
    search_images
        { status_code := 200, text := "",
          jsonBody := .ok (.obj [("items",
            .arr [.obj [("link", .str "u1")], .obj [("link", .str "u2")]])]) } =
      .ok [.str "u1", .str "u2"] :=
  ((search_images_success
      { status_code := 200, text := "",
        jsonBody := .ok (.obj [("items",
          .arr [.obj [("link", .str "u1")], .obj [("link", .str "u2")]])]) }
      [("items", .arr [.obj [("link", .str "u1")], .obj [("link", .str "u2")]])]
      rfl rfl).1
    [.obj [("link", .str "u1")], .obj [("link", .str "u2")]] rfl
    (by decide)).1

/-- Claim C8: for every query on which the image-search API responds with
a non-success (non-200) HTTP status, `search_images` raises an error
whose message carries both the status code and the response body, and it
raises before attempting to parse the response body as JSON: the outcome
is the same for every value of the parsed body, including a parse
failure. -/
theorem search_images_api_error (resp : HttpResp) (h : resp.status_code ≠ 200) :
    search_images resp =
      .error (.other ("Google API Error: " ++ toString resp.status_code ++
        " - " ++ resp.text)) ∧
    ∀ j, search_images { resp with jsonBody := j } = search_images resp := by
  constructor
  · simp [search_images, h]
  · intro j; simp [search_images, h]

/-- Witness for C8 at a concrete 403 response whose body does not even
parse as JSON. -/
theorem search_images_api_error_witness :
    search_images { status_code := 403, text := "quota", jsonBody := .error "no json" } =
      .error (.other ("Google API Error: " ++ toString 403 ++ " - " ++ "quota")) :=
  (search_images_api_error
    { status_code := 403, text := "quota", jsonBody := .error "no json" }
    (by decide)).1

/-- Claim C10: `search_images` returns normally only when every item of
the API response's items list contains a `link` key: if any item lacks
`link`, the call raises (no partial list is returned), since each item's
`link` field is accessed unguarded. -/
theorem search_images_missing_link (resp : HttpResp) (fs : List (String × JValue))
    (items : List JValue) (it : JValue)
    (hs : resp.status_code = 200) (hj : resp.jsonBody = .ok (.obj fs))
    (hitems : fs.lookup "items" = some (.arr items))
    (hmem : it ∈ items) (hlink : linkOf it = none) :
    ∃ m, search_images resp = .error (.other m) := by
  obtain ⟨m, hm⟩ := extract_links_error_of_missing items ⟨it, hmem, hlink⟩
  exact ⟨m, by simp [search_images, hs, hj, pyDictGet, hitems, pyIter, hm]⟩

/-- Witness for C10 at a concrete 200 response whose second item has no
`link` key. -/
theorem search_images_missing_link_witness :
    ∃ m, search_images
        { status_code := 200, text := "",
          jsonBody := .ok (.obj [("items",
            .arr [.obj [("link", .str "u1")], .obj [("title", .str "t")]])]) } =
      .error (.other m) :=
  search_images_missing_link _ _ _ (.obj [("title", .str "t")]) rfl rfl rfl
    (by simp) (by simp [linkOf])

/-! ## Supporting lemmas about the handler -/

theorem gen_notes_http_lift {σ : Type} (A : AgentSpec σ) (s : σ)
    (req : Except String JValue) (c : Nat) (d : String)
    (h : (generate_notes_body A s req).2 = .error (.http c d)) :
    (generate_notes A s req).2 = .error (.http c d) := by
  unfold generate_notes
  rcases hb : generate_notes_body A s req with ⟨s2, r⟩
  rw [hb] at h
  simp only at h
  subst h
  rfl

theorem gen_notes_snd_congr {σ : Type} (A : AgentSpec σ) (s1 s2 : σ)
    (req : Except String JValue)
    (h : (generate_notes_body A s1 req).2 = (generate_notes_body A s2 req).2) :
    (generate_notes A s1 req).2 = (generate_notes A s2 req).2 := by
  unfold generate_notes
  rcases h1 : generate_notes_body A s1 req with ⟨t1, r1⟩
  rcases h2 : generate_notes_body A s2 req with ⟨t2, r2⟩
  rw [h1, h2] at h
  simp only at h
  subst h
  rcases r1 with e | v
  · rcases e with ⟨c, d⟩ | m <;> rfl
  · rfl

theorem gen_notes_ok_inv {σ : Type} (A : AgentSpec σ) (s : σ)
    (req : Except String JValue) (v : HtmlResp)
    (h : (generate_notes A s req).2 = .ok v) :
    (generate_notes_body A s req).2 = .ok v ∧
    (generate_notes A s req).1 = (generate_notes_body A s req).1 := by
  unfold generate_notes at *
  rcases hb : generate_notes_body A s req with ⟨t, r⟩
  rw [hb] at h
  rcases r with e | w
  · rcases e with ⟨c, d⟩ | m <;> simp at h
  · simp at h
    simp [h]

theorem gen_body_ok_messages {σ : Type} (A : AgentSpec σ) (s : σ)
    (req : Except String JValue) (v : HtmlResp)
    (h : (generate_notes_body A s req).2 = .ok v) :
    v.messages = serializable_messages (A.messages (generate_notes_body A s req).1) := by
  rcases req with m | data
  · simp [generate_notes_body] at h
  · rcases hd : pyDictGet data "content" JValue.null with e | content
    · simp [generate_notes_body, hd] at h
    · by_cases ht : pyTruthy content = false
      · simp [generate_notes_body, hd, ht] at h
      · rcases hR : A.run s content with ⟨s2, r⟩
        rcases r with m | html
        · simp [generate_notes_body, hd, ht, hR] at h
        · simp only [generate_notes_body, hd, hR] at h ⊢
          rw [if_neg ht] at h ⊢
          simp only [Except.ok.injEq] at h
          subst h
          rfl

theorem serializable_messages_eq (l : List PyMsg) :
    serializable_messages l =
      (l.filter (fun m => m.role.isSome && m.content.isSome)).map
        (fun m => (m.role.getD JValue.null, m.content.getD JValue.null)) := by
  induction l with
  | nil => rfl
  | cons x xs ih =>
    rcases x with ⟨r, c⟩
    rcases r with _ | rv <;> rcases c with _ | cv <;>
      simp only [serializable_messages, List.filterMap_cons, List.filter_cons] at ih ⊢ <;>
      simp [ih]

/-! ## Claims about the POST /generate handler -/

/-- Claim C1: for every `POST /generate` request whose JSON body lacks a
truthy `content` field (the field absent, bound to `null`, or bound to
the empty string), the handler responds with HTTP status 400 and the
exact detail string `Missing 'content' in request body`. -/
theorem generate_notes_missing_content {σ : Type} (A : AgentSpec σ) (s : σ)
    (fs : List (String × JValue))
    (h : fs.lookup "content" = none ∨ fs.lookup "content" = some JValue.null ∨
         fs.lookup "content" = some (JValue.str "")) :
    (generate_notes A s (.ok (.obj fs))).2 =
      .error (.http 400 "Missing 'content' in request body") := by
  apply gen_notes_http_lift
  rcases h with h | h | h <;>
    simp [generate_notes_body, pyDictGet, h, pyTruthy]

/-- Witness for C1: the body `{"content": ""}` yields the 400 error. -/
theorem generate_notes_missing_content_witness :
    (generate_notes agentFlip false (.ok (.obj [("content", JValue.str "")]))).2 =
      .error (.http 400 "Missing 'content' in request body") :=
  generate_notes_missing_content agentFlip false [("content", JValue.str "")]
    (Or.inr (Or.inr rfl))

/-- Claim C4: for every exception raised during the agent invocation in
`POST /generate`, the handler responds with HTTP status 500 and the
detail string `An error occurred during generation: <message>`, which
carries the raised exception's message text literally. -/
theorem generate_notes_agent_failure {σ : Type} (A : AgentSpec σ) (s : σ)
    (fs : List (String × JValue)) (content : JValue) (m : String)
    (hc : fs.lookup "content" = some content)
    (ht : pyTruthy content = true)
    (hr : (A.run s content).2 = .error m) :
    (generate_notes A s (.ok (.obj fs))).2 =
      .error (.http 500 ("An error occurred during generation: " ++ m)) := by
  apply gen_notes_http_lift
  rcases hR : A.run s content with ⟨s2, r⟩
  rw [hR] at hr
  simp only at hr
  subst hr
  simp [generate_notes_body, pyDictGet, hc, ht, hR]

/-- Witness for C4: an agent raising `boom` on `{"content": "topic"}`
yields the 500 error embedding `boom`. -/
theorem generate_notes_agent_failure_witness :
    (generate_notes agentFail () (.ok (.obj [("content", JValue.str "topic")]))).2 =
      .error (.http 500 ("An error occurred during generation: " ++ "boom")) :=
  generate_notes_agent_failure agentFail () [("content", JValue.str "topic")]
    (JValue.str "topic") "boom" rfl rfl rfl

/-- Claim C5: every exception arising inside the `POST /generate` handler
that is already an `HTTPException` is re-raised unchanged — same status
code and same detail — rather than wrapped in a new error. -/
theorem generate_notes_http_reraise {σ : Type} (A : AgentSpec σ) (s : σ)
    (req : Except String JValue) (c : Nat) (d : String)
    (h : (generate_notes_body A s req).2 = .error (.http c d)) :
    (generate_notes A s req).2 = .error (.http c d) :=
  gen_notes_http_lift A s req c d h

/-- Witness for C5: the 400 raised for an empty body `{}` passes through
the outer handler unchanged. -/
theorem generate_notes_http_reraise_witness :
    (generate_notes agentFlip false (.ok (.obj []))).2 =
      .error (.http 400 "Missing 'content' in request body") :=
  generate_notes_http_reraise agentFlip false (.ok (.obj [])) 400
    "Missing 'content' in request body" rfl

/-- Claim C9: for every `POST /generate` request on which parsing the
request itself raises an exception (not an HTTP error), the handler
responds with HTTP status 500 and the detail string
`Failed to process request: <message>` embedding the underlying
exception's text. -/
theorem generate_notes_parse_failure {σ : Type} (A : AgentSpec σ) (s : σ)
    (m : String) :
    (generate_notes A s (.error m)).2 =
      .error (.http 500 ("Failed to process request: " ++ m)) := rfl

/-- Claim C3: for every transcript returned by `POST /generate`, the
returned messages list is exactly the `{role, content}` projections of
those transcript messages exposing both a `role` and a `content`
attribute, messages lacking either excluded, in the original relative
order (filter then map over `agent.memory.messages` at the post-run
state). -/
theorem generate_notes_messages_filtered {σ : Type} (A : AgentSpec σ) (s : σ)
    (req : Except String JValue) (v : HtmlResp)
    (h : (generate_notes A s req).2 = .ok v) :
    v.messages =
      ((A.messages (generate_notes A s req).1).filter
          (fun m => m.role.isSome && m.content.isSome)).map
        (fun m => (m.role.getD JValue.null, m.content.getD JValue.null)) := by
  obtain ⟨hb, hst⟩ := gen_notes_ok_inv A s req v h
  rw [hst, gen_body_ok_messages A s req v hb, serializable_messages_eq]

/-- Witness for C3: an agent transcript with one well-formed message and
one message lacking a role yields just the first message's projection. -/
theorem generate_notes_messages_filtered_witness :
    ({ html_content := "<p>notes</p>",
       messages := [(JValue.str "user", JValue.str "q")] } : HtmlResp).messages =
      ((agentTwoMsgs.messages (generate_notes agentTwoMsgs () goodReq).1).filter
          (fun m => m.role.isSome && m.content.isSome)).map
        (fun m => (m.role.getD JValue.null, m.content.getD JValue.null)) :=
  generate_notes_messages_filtered agentTwoMsgs () goodReq
    { html_content := "<p>notes</p>", messages := [(JValue.str "user", JValue.str "q")] }
    rfl

/-- Claim C6: every successful `POST /generate` response body serializes
to a JSON object with exactly two top-level keys, `html_content` bound to
a string and `messages` bound to an array, whatever the number of
messages. -/
theorem generate_notes_response_shape {σ : Type} (A : AgentSpec σ) (s : σ)
    (req : Except String JValue) (v : HtmlResp)
    (_h : (generate_notes A s req).2 = .ok v) :
    ∃ html ms, HtmlResp.toJson v =
      JValue.obj [("html_content", JValue.str html), ("messages", JValue.arr ms)] :=
  ⟨v.html_content,
   v.messages.map (fun p => JValue.obj [("role", p.1), ("content", p.2)]), by rfl⟩

/-- Witness for C6 at a concrete successful request with an empty
transcript. -/
theorem generate_notes_response_shape_witness :
    ∃ html ms, HtmlResp.toJson { html_content := "<p>notes</p>", messages := [] } =
      JValue.obj [("html_content", JValue.str html), ("messages", JValue.arr ms)] :=
  generate_notes_response_shape agentFlip false goodReq
    { html_content := "<p>notes</p>", messages := [] } rfl

/-- Counterexample to claim C2 as stated.  The handler serves every
request with the single module-global agent and returns the post-run
`agent.memory.messages`, so the response is a function of the agent state
left behind by earlier requests: with an agent whose memory accumulates
its inputs across runs (the shape of a conversational agent kept alive
across requests), the same request `{"content": "topic"}` receives a
one-message transcript after an empty history and a two-message
transcript after a one-request history. -/
theorem generate_notes_history_dependent :
    (generate_notes agentAccum (serve agentAccum [] []) goodReq).2 ≠
      (generate_notes agentAccum (serve agentAccum [] [goodReq]) goodReq).2 := by
  intro h
  exact absurd (congrArg respMsgCount h) (by decide)

/-- Claim C2, amended: the gateway shares one mutable agent across all
requests, so only the agent's own behaviour decides history independence.
Whenever the agent's run outcome and post-run transcript are functions of
the current input alone, the handler's response to a request is the same
from any two prior agent states — the gateway adds no statefulness of its
own. -/
theorem generate_notes_stateless_of_agent_pure {σ : Type} (A : AgentSpec σ)
    (F : JValue → Except String String) (G : JValue → List PyMsg)
    (hF : ∀ s x, (A.run s x).2 = F x)
    (hG : ∀ s x, A.messages (A.run s x).1 = G x)
    (s1 s2 : σ) (req : Except String JValue) :
    (generate_notes A s1 req).2 = (generate_notes A s2 req).2 := by
  apply gen_notes_snd_congr
  rcases req with m | data
  · rfl
  · rcases hd : pyDictGet data "content" JValue.null with e | content
    · simp [generate_notes_body, hd]
    · by_cases ht : pyTruthy content = false
      · simp [generate_notes_body, hd, ht]
      · rcases h1 : A.run s1 content with ⟨t1, r1⟩
        rcases h2 : A.run s2 content with ⟨t2, r2⟩
        have e1 : r1 = F content := by rw [← hF s1 content, h1]
        have e2 : r2 = F content := by rw [← hF s2 content, h2]
        have m1 : A.messages t1 = G content := by rw [← hG s1 content, h1]
        have m2 : A.messages t2 = G content := by rw [← hG s2 content, h2]
        subst e1
        simp only [generate_notes_body, hd, h1, h2]
        rw [if_neg ht, if_neg ht, ← e2]
        rcases r2 with m | html
        · rfl
        · simp [m1, m2]

/-- Witness for the amended C2: an agent that ignores its state yields
the same response from two different prior states. -/
theorem generate_notes_stateless_of_agent_pure_witness :
    (generate_notes agentFlip true goodReq).2 =
      (generate_notes agentFlip false goodReq).2 :=
  generate_notes_stateless_of_agent_pure agentFlip
    (fun _ => .ok "<p>notes</p>") (fun _ => [])
    (fun _ _ => rfl) (fun _ _ => rfl) true false goodReq
